import Mathlib

/-!
Verification development for the SoundKeeper repository.

Two parts are embedded:

* `BuildTool`: the build-metadata tool (`DefineItem` / `DefineEditor`) whose
  source is present in the repository; its line parser, serialiser, delete and
  save operations are translated directly from the C# source.

* `SoundKeeper`: the device-change coordinator (`CSoundKeeper`) and the
  per-device session guard (`CKeepSession`).  The repository snapshot contains
  only the class declarations (`CSoundKeeper.h`, `CKeepSession.h`); the
  implementation files with the method bodies are missing, so these
  definitions are modelled from the specification, as marked on each one.
-/

namespace BuildTool

/-- Characters matched by the regex class `\s` (its ASCII members) as used by
the pattern `^(\s*#define\s+)([A-Za-z0-9_]+)(?:(\s+)(.*))?$` of
`DefineItem.Parse`. -/
def wsChar (c : Char) : Bool :=
  c == ' ' || c == '\t' || c == '\n' || c == '\r' || c == '\x0b' || c == '\x0c'

/-- Characters matched by the regex class `[A-Za-z0-9_]` of `DefineItem.Parse`. -/
def wordChar (c : Char) : Bool :=
  ('A' ≤ c && c ≤ 'Z') || ('a' ≤ c && c ≤ 'z') || ('0' ≤ c && c ≤ '9') || c == '_'

/-- The literal `#define` of the pattern. -/
def defineLit : List Char := ['#', 'd', 'e', 'f', 'i', 'n', 'e']

/-- One line of `BuildInfo.hpp` as held by class `DefineItem` of the build
tool.  `Pref` models the source field `Prefix` (group 1 of the pattern,
leading whitespace plus `#define` plus following whitespace); text is
represented as `List Char`. -/
structure DefineItem where
  Pref    : List Char
  Name    : List Char
  Space   : List Char
  Value   : List Char
  Ignored : List Char
  Deleted : Bool
deriving DecidableEq

/-- The result of `DefineItem.Parse` for a line the pattern does not match:
everything empty except `Ignored`, which holds the whole line. -/
def ignoredItem (line : List Char) : DefineItem :=
  { Pref := [], Name := [], Space := [], Value := [], Ignored := line, Deleted := false }

/-- Matching the literal piece of the pattern: `stripLit lit r` returns the
rest of `r` after the initial segment `lit`, or `none` when `lit` is not an
initial segment of `r`. -/
def stripLit : List Char → List Char → Option (List Char)
  | [], r => some r
  | _ :: _, [] => none
  | c :: cs, d :: ds => if c = d then stripLit cs ds else none

/-- The guard deciding that the regex match fails after the name: the optional
group `(?:(\s+)(.*))?` followed by `$` requires that what follows the name is
either empty or starts with a whitespace character. -/
def headBad : List Char → Bool
  | [] => false
  | c :: _ => !wsChar c

/-- Failure of the regex after the literal `#define`: `\s+` requires at least
one whitespace character, `[A-Za-z0-9_]+` at least one word character, and the
optional tail group must start with whitespace when anything follows the
name. -/
def badTail (r2 : List Char) : Bool :=
  (r2.takeWhile wsChar).isEmpty
    || ((r2.dropWhile wsChar).takeWhile wordChar).isEmpty
    || headBad ((r2.dropWhile wsChar).dropWhile wordChar)

/-- The `DefineItem` built from a successful match: group 1 (`Pref`) is the
leading whitespace, the literal and the whitespace after it; group 2 (`Name`)
the maximal word-character run; groups 3 and 4 (`Space`, `Value`) the maximal
whitespace run after the name and the remainder (both empty when nothing
follows the name, as .NET reports unmatched optional groups as empty). -/
def mkDef (line r2 : List Char) : DefineItem :=
  { Pref := line.takeWhile wsChar ++ defineLit ++ r2.takeWhile wsChar
    Name := (r2.dropWhile wsChar).takeWhile wordChar
    Space := ((r2.dropWhile wsChar).dropWhile wordChar).takeWhile wsChar
    Value := ((r2.dropWhile wsChar).dropWhile wordChar).dropWhile wsChar
    Ignored := []
    Deleted := false }

/-- Dispatch of `DefineItem.Parse` on whether the literal `#define` was found
after the leading whitespace. -/
def parseRest (line : List Char) : Option (List Char) → DefineItem
  | none => ignoredItem line
  | some r2 => if badTail r2 then ignoredItem line else mkDef line r2

/-- `DefineItem.Parse line`: the match of
`^(\s*#define\s+)([A-Za-z0-9_]+)(?:(\s+)(.*))?$` against the line with the
regex's greedy semantics made functional (`\s*`, `\s+` and `[A-Za-z0-9_]+`
take maximal runs; backtracking can never turn this overall failure into a
success because a shorter run is always followed by another character of the
same class). -/
def parseLine (line : List Char) : DefineItem :=
  parseRest line (stripLit defineLit (line.dropWhile wsChar))

/-- `DefineItem.ToString`: `Prefix + Name + (Name != "" && Space == "" &&
Value != "" ? " " : Space) + Value + Ignored`. -/
def DefineItem.toStr (it : DefineItem) : List Char :=
  it.Pref ++ it.Name ++
    (if it.Name ≠ [] ∧ it.Space = [] ∧ it.Value ≠ [] then [' '] else it.Space) ++
    it.Value ++ it.Ignored

theorem stripLit_eq : ∀ (lit r t : List Char), stripLit lit r = some t → r = lit ++ t
  | [], r, t, h => by
      simp only [stripLit, Option.some.injEq] at h
      simp [h]
  | _ :: _, [], t, h => by
      simp [stripLit] at h
  | c :: cs, d :: ds, t, h => by
      by_cases hc : c = d
      · subst hc
        simp only [stripLit, if_pos rfl] at h
        have hrec := stripLit_eq cs ds t h
        simp [hrec]
      · simp [stripLit, hc] at h

theorem headBad_take_nil (r4 : List Char) (h : headBad r4 = false)
    (h2 : r4.takeWhile wsChar = []) : r4 = [] := by
  cases r4 with
  | nil => rfl
  | cons c cs =>
      have hws : wsChar c = true := by simpa [headBad] using h
      rw [List.takeWhile_cons_of_pos hws] at h2
      exact absurd h2 (by simp)

/-- Claim C9: for every text line, constructing a `DefineItem` from the line
and serialising it with `ToString` returns the original line character for
character: a matching line is reassembled exactly from `Pref`, `Name`,
`Space` and `Value`, and a non-matching line is reproduced verbatim from
`Ignored`. -/
theorem defineItem_roundtrip (line : List Char) : (parseLine line).toStr = line := by
  rw [parseLine]
  cases hstrip : stripLit defineLit (line.dropWhile wsChar) with
  | none => simp [parseRest, ignoredItem, DefineItem.toStr]
  | some r2 =>
      have hdw : line.dropWhile wsChar = defineLit ++ r2 :=
        stripLit_eq defineLit (line.dropWhile wsChar) r2 hstrip
      have hline : line.takeWhile wsChar ++ (defineLit ++ r2) = line := by
        rw [← hdw]
        exact List.takeWhile_append_dropWhile wsChar line
      by_cases hb : badTail r2 = true
      · simp [parseRest, hb, ignoredItem, DefineItem.toStr]
      · have hmk : parseRest line (some r2) = mkDef line r2 := by
          simp [parseRest, hb]
        rw [hmk]
        have hbad3 : headBad ((r2.dropWhile wsChar).dropWhile wordChar) = false := by
          cases hh : headBad ((r2.dropWhile wsChar).dropWhile wordChar) with
          | false => rfl
          | true => exact absurd (by simp [badTail, hh]) hb
        have hcond : ¬ (((r2.dropWhile wsChar).takeWhile wordChar) ≠ [] ∧
            (((r2.dropWhile wsChar).dropWhile wordChar).takeWhile wsChar) = [] ∧
            (((r2.dropWhile wsChar).dropWhile wordChar).dropWhile wsChar) ≠ []) := by
          rintro ⟨_, h2, h3⟩
          rw [headBad_take_nil _ hbad3 h2] at h3
          simp at h3
        rw [DefineItem.toStr]
        simp only [mkDef]
        rw [if_neg hcond]
        simp only [List.append_nil, List.append_assoc]
        rw [List.takeWhile_append_dropWhile, List.takeWhile_append_dropWhile,
          List.takeWhile_append_dropWhile]
        exact hline

/-- `DefineEditor.Delete name`: sets the `Deleted` flag on every item whose
`Name` equals `name`, leaving all other items and the list order untouched. -/
def deleteByName (name : List Char) (items : List DefineItem) : List DefineItem :=
  items.map (fun it => if it.Name = name then { it with Deleted := true } else it)

/-- `DefineEditor.Save`: writes `item.ToString()` per item in list order, but
its loop runs `break` (not `continue`) on the first item whose `Deleted` flag
is set, ending the file there. -/
def saveLines : List DefineItem → List (List Char)
  | [] => []
  | it :: rest => if it.Deleted then [] else it.toStr :: saveLines rest

/-- The `DefineItem(string name, string value)` constructor of the source:
prefix `#define `, a single space, no ignored text. -/
def mkItem (name value : List Char) : DefineItem :=
  { Pref := defineLit ++ [' '], Name := name, Space := [' '], Value := value
    Ignored := [], Deleted := false }

theorem saveLines_takeWhile :
    ∀ items : List DefineItem,
      saveLines items = (items.takeWhile (fun it => !it.Deleted)).map DefineItem.toStr
  | [] => rfl
  | it :: rest => by
      by_cases hd : it.Deleted
      · simp [saveLines, hd, List.takeWhile_cons]
      · simp [saveLines, hd, List.takeWhile_cons, saveLines_takeWhile rest]

theorem saveLines_length_le :
    ∀ (l : List DefineItem) (i : Nat) (h : i < l.length),
      (l.get ⟨i, h⟩).Deleted = true → (saveLines l).length ≤ i
  | it :: _, 0, _, hdel => by
      simp only [List.get] at hdel
      simp [saveLines, hdel]
  | it :: rest, i + 1, h, hdel => by
      by_cases hd : it.Deleted
      · simp [saveLines, hd]
      · have ih := saveLines_length_le rest i (by simpa using h) (by simpa using hdel)
        simp only [saveLines, hd, if_neg, Bool.false_eq_true, ite_false, List.length_cons]
        omega

/-- Claim C10: `Save` writes the kept items in list order but stops at the
first item whose `Deleted` flag is set (its loop breaks instead of skipping),
so after `Delete name` followed by `Save`, every item positioned at or after
the first deleted item is omitted from the written file, including items that
were never deleted. -/
theorem save_truncates_at_first_deleted :
    (∀ items : List DefineItem,
        saveLines items = (items.takeWhile (fun it => !it.Deleted)).map DefineItem.toStr)
    ∧ (∀ (name : List Char) (items : List DefineItem) (i : Nat)
        (h : i < (deleteByName name items).length),
        ((deleteByName name items).get ⟨i, h⟩).Deleted = true →
        (saveLines (deleteByName name items)).length ≤ i) :=
  ⟨saveLines_takeWhile,
   fun _ items i h hdel => saveLines_length_le _ i h hdel⟩

/-- A concrete three-item file used to witness claim C10. -/
def demoItems : List DefineItem :=
  [mkItem ['A'] ['1'], mkItem ['X'] ['2'], mkItem ['B'] ['3']]

/-- Witness for claim C10: deleting the middle item of `demoItems` and saving
omits the last item (which was never deleted): at most one line is written. -/
theorem save_truncates_witness :
    (saveLines (deleteByName ['X'] demoItems)).length ≤ 1 :=
  save_truncates_at_first_deleted.2 ['X'] demoItems 1 (by decide) (by decide)

end BuildTool

namespace SoundKeeper

/-- Modelled from the spec: endpoint identity, an opaque string key uniquely
identifying an OS audio device (spec data model).  The method bodies of
`CSoundKeeper` are missing from the repository snapshot (only `CSoundKeeper.h`
is present), so the coordinator below is modelled from the specification. -/
abbrev DeviceId := String

/-- Lifecycle states of a session guard (spec data model). -/
inductive GuardState where
  | Created
  | Initializing
  | Running
  | ShuttingDown
  | Stopped
deriving DecidableEq

/-- Modelled from the spec: one Session Lifecycle Guard entry of the
coordinator's collection (one `CKeepSession*` of `CSoundKeeper::Keepers`);
missing: the implementation file defining `CSoundKeeper`'s methods. -/
structure Guard where
  device : DeviceId
  state : GuardState
deriving DecidableEq

/-- Modelled from the spec: the coordinator state of `CSoundKeeper`
(`IsStarted`, `Keepers`, and the two manual events `RestartEvent` and
`ShutdownEvent`, set by the fire methods and consumed by the control loop);
missing: the implementation file defining `CSoundKeeper`'s methods. -/
structure SKState where
  isStarted : Bool
  keepers : List Guard
  restartEvent : Bool
  shutdownEvent : Bool
deriving DecidableEq

/-- The freshly constructed coordinator: not started, empty collection, no
pending events. -/
def initState : SKState :=
  { isStarted := false, keepers := [], restartEvent := false, shutdownEvent := false }

/-- Modelled from the spec: one per-device guard initialisation attempt made
by `Start`.  Devices in `failing` model transient per-device initialisation
failure (error taxonomy (a) of the spec): such a device yields no guard; a
successful device yields a guard in the `Running` state. -/
def tryInit (failing : List DeviceId) (d : DeviceId) : Option Guard :=
  if d ∈ failing then none else some { device := d, state := GuardState.Running }

/-- Modelled from the spec: the enumeration loop of `CSoundKeeper::Start`:
one initialisation attempt per enumerated endpoint, in enumeration order,
failures skipped without aborting the rest. -/
def startLoop (failing : List DeviceId) : List DeviceId → List Guard
  | [] => []
  | d :: rest =>
    match tryInit failing d with
    | none => startLoop failing rest
    | some g => g :: startLoop failing rest

/-- Modelled from the spec: `CSoundKeeper::Start` — enumerates the currently
active render endpoints (`env`, the fresh device snapshot taken at call time)
and creates/initialises one guard per endpoint; a per-device failure does not
fail the whole operation. -/
def Start (env failing : List DeviceId) (s : SKState) : SKState :=
  { s with isStarted := true, keepers := startLoop failing env }

/-- Modelled from the spec: `CSoundKeeper::Stop` — shuts down every guard in
the collection and clears it. -/
def Stop (s : SKState) : SKState :=
  { s with isStarted := false, keepers := [] }

/-- Modelled from the spec: `CSoundKeeper::Restart` — full teardown and
recreation of all guards from a fresh device snapshot (`env` is the snapshot
enumerated at restart time, independent of the previous collection). -/
def Restart (env failing : List DeviceId) (s : SKState) : SKState :=
  { isStarted := true, keepers := startLoop failing env
    restartEvent := s.restartEvent, shutdownEvent := s.shutdownEvent }

/-- Modelled from the spec: `CSoundKeeper::FireRestart` — flags a pending
restart request and returns. -/
def FireRestart (s : SKState) : SKState := { s with restartEvent := true }

/-- Modelled from the spec: `CSoundKeeper::FireShutdown` — flags the
process-wide shutdown request and returns. -/
def FireShutdown (s : SKState) : SKState := { s with shutdownEvent := true }

/-- Modelled from the spec: `OnDefaultDeviceChanged` — like every device
notification callback it only requests a restart (no inline rebuild, no
incremental diff).  `flow` and `role` model the `EDataFlow`/`ERole`
arguments. -/
def OnDefaultDeviceChanged (flow role : Nat) (id : DeviceId) (s : SKState) : SKState :=
  FireRestart s

/-- Modelled from the spec: `OnDeviceAdded` — requests a restart and returns. -/
def OnDeviceAdded (id : DeviceId) (s : SKState) : SKState := FireRestart s

/-- Modelled from the spec: `OnDeviceRemoved` — requests a restart and returns. -/
def OnDeviceRemoved (id : DeviceId) (s : SKState) : SKState := FireRestart s

/-- Modelled from the spec: `OnDeviceStateChanged` — requests a restart and
returns; `newState` models the `DWORD` new-state argument. -/
def OnDeviceStateChanged (id : DeviceId) (newState : Nat) (s : SKState) : SKState :=
  FireRestart s

/-- Modelled from the spec: `OnPropertyValueChanged` — requests a restart and
returns; `key` models the `PROPERTYKEY` argument. -/
def OnPropertyValueChanged (id : DeviceId) (key : Nat) (s : SKState) : SKState :=
  FireRestart s

/-- Modelled from the spec: one serialized pass of the control loop inside
`CSoundKeeper::Main`: a pending shutdown tears everything down; otherwise a
pending restart is consumed (the event resets) and one full `Restart`
executes against the snapshot current at that moment.  The second component
counts how many restart cycles the pass executed. -/
def mainStep (env failing : List DeviceId) (s : SKState) : SKState × Nat :=
  if s.shutdownEvent then (Stop s, 0)
  else if s.restartEvent then
    ({ Restart env failing s with restartEvent := false }, 1)
  else (s, 0)

/-- One globally ordered action of the system: request/notification actions
may be issued from any thread and only set flags; a `control` action is one
serialized pass of the control loop, carrying the device snapshot and the
failure oracle current at that moment.  Interleavings of threads are modelled
as arbitrary sequences of these actions. -/
inductive Act where
  | fireRestart
  | fireShutdown
  | deviceAdded (id : DeviceId)
  | deviceRemoved (id : DeviceId)
  | deviceStateChanged (id : DeviceId) (newState : Nat)
  | defaultDeviceChanged (flow role : Nat) (id : DeviceId)
  | propertyValueChanged (id : DeviceId) (key : Nat)
  | control (env failing : List DeviceId)
deriving DecidableEq

/-- Effect of one action on the coordinator state. -/
def step (a : Act) (s : SKState) : SKState :=
  match a with
  | Act.fireRestart => FireRestart s
  | Act.fireShutdown => FireShutdown s
  | Act.deviceAdded id => OnDeviceAdded id s
  | Act.deviceRemoved id => OnDeviceRemoved id s
  | Act.deviceStateChanged id st => OnDeviceStateChanged id st s
  | Act.defaultDeviceChanged f r id => OnDefaultDeviceChanged f r id s
  | Act.propertyValueChanged id k => OnPropertyValueChanged id k s
  | Act.control env failing => (mainStep env failing s).1

/-- Running a whole interleaving of actions. -/
def run (acts : List Act) (s : SKState) : SKState :=
  acts.foldl (fun st a => step a st) s

/-- A guard collection that is the result of one fully-applied rebuild: empty
(initially or after `Stop`), or the complete outcome of `startLoop` on some
device snapshot. -/
def RebuildState (ks : List Guard) : Prop :=
  ks = [] ∨ ∃ env failing, ks = startLoop failing env

/-- Device id used by `burst`. -/
def devBurst : DeviceId := "default"

/-- A burst of `n` default-device-changed notifications delivered before the
control loop runs again. -/
def burst : Nat → SKState → SKState
  | 0, s => s
  | n + 1, s => burst n (OnDefaultDeviceChanged 0 0 devBurst s)

/-- Modelled from the spec: the resource state of one `CKeepSession` — the
worker thread, the audio stream, the session-event registration and the
device reference owned by the guard — together with counters of how many
times each resource has been released, used to express that nothing is ever
released twice; missing: the implementation file defining `CKeepSession`'s
methods. -/
structure SessionState where
  threadRunning : Bool
  streamOpen : Bool
  notifRegistered : Bool
  deviceHeld : Bool
  threadJoins : Nat
  streamReleases : Nat
  notifUnregisters : Nat
  deviceReleases : Nat
deriving DecidableEq

/-- Modelled from the spec: `CKeepSession::Shutdown` — signals the worker and
joins its thread, stops and releases the stream, unregisters the
session-event notification and releases the device reference, each release
happening only when that resource is actually held; a total function (the
bounded waits always return). -/
def Shutdown (s : SessionState) : SessionState :=
  { threadRunning := false
    streamOpen := false
    notifRegistered := false
    deviceHeld := false
    threadJoins := s.threadJoins + s.threadRunning.toNat
    streamReleases := s.streamReleases + s.streamOpen.toNat
    notifUnregisters := s.notifUnregisters + s.notifRegistered.toNat
    deviceReleases := s.deviceReleases + s.deviceHeld.toNat }

/-- Modelled from the spec: the state after the first `k` acquisition steps of
`CKeepSession::Initialize` (device reference, then stream, then session-event
registration, then worker thread); `k < 4` is a partially failed
initialisation. -/
def initUpTo (k : Nat) : SessionState :=
  { deviceHeld := decide (1 ≤ k), streamOpen := decide (2 ≤ k)
    notifRegistered := decide (3 ≤ k), threadRunning := decide (4 ≤ k)
    threadJoins := 0, streamReleases := 0, notifUnregisters := 0, deviceReleases := 0 }

/-- Calling `Shutdown` `n` times in a row. -/
def shutdownN : Nat → SessionState → SessionState
  | 0, s => s
  | n + 1, s => Shutdown (shutdownN n s)

/-- Sample representations negotiated by the render worker
(`CKeepSession::RenderSampleType`). -/
inductive RenderSampleType where
  | SampleTypeFloat
  | SampleType16BitPCM
deriving DecidableEq

/-- The IEEE-754 single-precision bit pattern with the given sign, exponent
and mantissa fields. -/
def float32Bits (sign expo mant : Nat) : Nat :=
  sign * 2 ^ 31 + expo * 2 ^ 23 + mant

/-- The bit pattern of the floating-point sample value `+0.0f`: sign 0,
exponent 0, mantissa 0. -/
def floatZeroBits : Nat := float32Bits 0 0 0

/-- Little-endian byte serialisation of a `w`-byte value. -/
def bytesLE (w v : Nat) : List Nat :=
  (List.range w).map (fun i => v / 2 ^ (8 * i) % 256)

/-- Modelled from the spec: the bytes of one silent sample in the negotiated
representation — the 16-bit integer `0` for integer PCM and the IEEE-754
single `0.0` for float (the body of `CKeepSession::DoRenderThread` is missing
from the snapshot). -/
def silentSampleBytes : RenderSampleType → List Nat
  | RenderSampleType.SampleTypeFloat => bytesLE 4 floatZeroBits
  | RenderSampleType.SampleType16BitPCM => bytesLE 2 0

/-- Bytes per sample slot of each representation. -/
def sampleWidth : RenderSampleType → Nat
  | RenderSampleType.SampleTypeFloat => 4
  | RenderSampleType.SampleType16BitPCM => 2

/-- Modelled from the spec: one buffer-available iteration of the render loop
fills the committed region — `n` sample slots — with silence in the stream's
negotiated representation. -/
def fillSilence (t : RenderSampleType) : Nat → List Nat
  | 0 => []
  | n + 1 => silentSampleBytes t ++ fillSilence t n

/-- Devices used in concrete witnesses. -/
def devA : DeviceId := "A"

/-- Second device used in concrete witnesses. -/
def devB : DeviceId := "B"

theorem startLoop_keys (failing : List DeviceId) :
    ∀ env : List DeviceId,
      (startLoop failing env).map Guard.device = env.filter (fun d => decide (d ∉ failing))
  | [] => rfl
  | d :: rest => by
      by_cases hd : d ∈ failing
      · simp [startLoop, tryInit, hd, List.filter_cons, startLoop_keys failing rest]
      · simp [startLoop, tryInit, hd, List.filter_cons, startLoop_keys failing rest]

theorem startLoop_mem_of (failing : List DeviceId) :
    ∀ (env : List DeviceId) (d : DeviceId), d ∈ env → d ∉ failing →
      Guard.mk d GuardState.Running ∈ startLoop failing env
  | [], d, hmem, _ => absurd hmem (List.not_mem_nil d)
  | e :: rest, d, hmem, hf => by
      rcases List.mem_cons.mp hmem with rfl | htail
      · have hs : startLoop failing (d :: rest)
            = Guard.mk d GuardState.Running :: startLoop failing rest := by
          simp [startLoop, tryInit, hf]
        rw [hs]
        exact List.mem_cons_self _ _
      · by_cases he : e ∈ failing
        · simpa [startLoop, tryInit, he] using startLoop_mem_of failing rest d htail hf
        · have hs : startLoop failing (e :: rest)
              = Guard.mk e GuardState.Running :: startLoop failing rest := by
            simp [startLoop, tryInit, he]
          rw [hs]
          exact List.mem_cons_of_mem _ (startLoop_mem_of failing rest d htail hf)

theorem startLoop_state (failing : List DeviceId) :
    ∀ (env : List DeviceId) (g : Guard), g ∈ startLoop failing env → g.state = GuardState.Running
  | [], g, hg => absurd hg (List.not_mem_nil g)
  | e :: rest, g, hg => by
      by_cases he : e ∈ failing
      · exact startLoop_state failing rest g (by simpa [startLoop, tryInit, he] using hg)
      · have hs : startLoop failing (e :: rest)
            = Guard.mk e GuardState.Running :: startLoop failing rest := by
          simp [startLoop, tryInit, he]
        rw [hs] at hg
        rcases List.mem_cons.mp hg with rfl | htail
        · rfl
        · exact startLoop_state failing rest g htail

/-- Claim C1 counterexample: a settled state (no pending event, no operation
in flight) in which the sole active render endpoint failed guard
initialisation, so the guard collection's key set is empty and does not equal
the set of active endpoints. -/
theorem guard_collection_cex :
    ((Start [devA] [devA] initState).keepers.map Guard.device) ≠ [devA] := by decide

/-- Claim C1 (amended): in every settled state reached by a rebuild, the
guard collection holds exactly one guard per currently active render endpoint
whose initialisation succeeded: no guard for a non-enumerable endpoint, no
duplicates, and an endpoint that failed initialisation is absent. -/
theorem guard_collection_amended (env failing : List DeviceId) (s : SKState)
    (h : env.Nodup) (d : DeviceId) :
    ((Start env failing s).keepers.map Guard.device).count d
      = if d ∈ env ∧ d ∉ failing then 1 else 0 := by
  have hkeys : (Start env failing s).keepers.map Guard.device
      = env.filter (fun x => decide (x ∉ failing)) := startLoop_keys failing env
  rw [hkeys]
  by_cases hmem : d ∈ env ∧ d ∉ failing
  · rw [if_pos hmem]
    exact List.count_eq_one_of_mem (h.filter _)
      (List.mem_filter.mpr ⟨hmem.1, by simpa using hmem.2⟩)
  · rw [if_neg hmem]
    refine List.count_eq_zero_of_not_mem (fun hin => hmem ?_)
    have hmf := List.mem_filter.mp hin
    exact ⟨hmf.1, by simpa using hmf.2⟩

/-- Witness for claim C1 (amended): with snapshot `[devA, devB]` and `devA`
failing initialisation, the settled collection counts exactly one guard for
`devB`. -/
theorem guard_collection_amended_witness :
    ((Start [devA, devB] [devA] initState).keepers.map Guard.device).count devB
      = if devB ∈ [devA, devB] ∧ devB ∉ [devA] then 1 else 0 :=
  guard_collection_amended [devA, devB] [devA] initState (by decide) devB

/-- Claim C2: every device-notification callback of the coordinator, on every
argument, only flags a pending restart request and returns: the resulting
state is exactly the input state with `restartEvent` set, so the guard
collection is never mutated inline and no incremental diff happens. -/
theorem notifications_only_flag_restart (s : SKState) (id : DeviceId)
    (flow role newState key : Nat) :
    OnDeviceAdded id s = { s with restartEvent := true }
    ∧ OnDeviceRemoved id s = { s with restartEvent := true }
    ∧ OnDeviceStateChanged id newState s = { s with restartEvent := true }
    ∧ OnDefaultDeviceChanged flow role id s = { s with restartEvent := true }
    ∧ OnPropertyValueChanged id key s = { s with restartEvent := true } :=
  ⟨rfl, rfl, rfl, rfl, rfl⟩

/-- Claim C3: for every interleaving of fire/notification requests (issued
from any thread) with serialized control-loop passes, the guard collection is
only ever observable in a state produced by one fully-applied rebuild (or
empty): request actions never touch the collection, and each control pass
applies a whole rebuild atomically. -/
theorem coordination_serialized (acts : List Act) (s : SKState)
    (h : RebuildState s.keepers) : RebuildState (run acts s).keepers := by
  induction acts generalizing s with
  | nil => exact h
  | cons a rest ih =>
      have hrun : run (a :: rest) s = run rest (step a s) := rfl
      rw [hrun]
      apply ih
      cases a with
      | control env failing =>
          by_cases hsd : s.shutdownEvent = true
          · exact Or.inl (by simp [step, mainStep, hsd, Stop])
          · by_cases hre : s.restartEvent = true
            · exact Or.inr ⟨env, failing, by simp [step, mainStep, hsd, hre, Restart]⟩
            · simpa [step, mainStep, hsd, hre] using h
      | fireRestart => exact h
      | fireShutdown => exact h
      | deviceAdded id => exact h
      | deviceRemoved id => exact h
      | deviceStateChanged id st => exact h
      | defaultDeviceChanged f r id => exact h
      | propertyValueChanged id k => exact h

/-- Witness for claim C3: a concrete interleaving of notifications, fire
requests and control passes starting from the initial state keeps the
collection in fully-rebuilt or empty states. -/
theorem coordination_serialized_witness :
    RebuildState (run [Act.deviceAdded devA, Act.control [devA] [],
      Act.fireRestart, Act.control [devA, devB] [devB]] initState).keepers :=
  coordination_serialized
    [Act.deviceAdded devA, Act.control [devA] [],
      Act.fireRestart, Act.control [devA, devB] [devB]] initState (Or.inl rfl)

theorem Shutdown_Shutdown (s : SessionState) : Shutdown (Shutdown s) = Shutdown s := by
  simp [Shutdown]

/-- Claim C4: calling `Shutdown` any number of times (from any state,
including every state a partially failed `Initialize` can leave behind)
yields the same final state as calling it once from that point, and no
resource is released more than once; `Shutdown` is a total function, so every
call returns. -/
theorem shutdown_idempotent (s : SessionState) (n : Nat) (hn : 1 ≤ n) :
    shutdownN n s = Shutdown s
    ∧ (shutdownN n s).threadJoins ≤ s.threadJoins + 1
    ∧ (shutdownN n s).streamReleases ≤ s.streamReleases + 1
    ∧ (shutdownN n s).notifUnregisters ≤ s.notifUnregisters + 1
    ∧ (shutdownN n s).deviceReleases ≤ s.deviceReleases + 1 := by
  have hmain : ∀ m : Nat, shutdownN (m + 1) s = Shutdown s := by
    intro m
    induction m with
    | zero => rfl
    | succ k ihk => rw [shutdownN, ihk, Shutdown_Shutdown]
  obtain ⟨m, rfl⟩ : ∃ m, n = m + 1 := ⟨n - 1, by omega⟩
  rw [hmain m]
  refine ⟨rfl, ?_, ?_, ?_, ?_⟩
  · simp only [Shutdown]
    cases s.threadRunning <;> simp
  · simp only [Shutdown]
    cases s.streamOpen <;> simp
  · simp only [Shutdown]
    cases s.notifRegistered <;> simp
  · simp only [Shutdown]
    cases s.deviceHeld <;> simp

/-- Witness for claim C4: three consecutive `Shutdown` calls on a session
whose initialisation stopped after acquiring the device and the stream equal
a single call, and each release counter rose at most once. -/
theorem shutdown_idempotent_witness :
    shutdownN 3 (initUpTo 2) = Shutdown (initUpTo 2)
    ∧ (shutdownN 3 (initUpTo 2)).threadJoins ≤ (initUpTo 2).threadJoins + 1
    ∧ (shutdownN 3 (initUpTo 2)).streamReleases ≤ (initUpTo 2).streamReleases + 1
    ∧ (shutdownN 3 (initUpTo 2)).notifUnregisters ≤ (initUpTo 2).notifUnregisters + 1
    ∧ (shutdownN 3 (initUpTo 2)).deviceReleases ≤ (initUpTo 2).deviceReleases + 1 :=
  shutdown_idempotent (initUpTo 2) 3 (by decide)

theorem burst_fireRestart : ∀ (n : Nat) (s : SKState), burst n (FireRestart s) = FireRestart s
  | 0, _ => rfl
  | n + 1, s => by
      rw [burst]
      exact burst_fireRestart n s

/-- Claim C5: a burst of `n ≥ 1` default-device-changed notifications
arriving before the control loop runs leaves exactly one pending restart (the
same state as a single notification), and the control loop then executes
exactly one restart cycle for the whole burst: one on its next pass and none
on the pass after. -/
theorem restart_coalesced (n : Nat) (s : SKState) (env failing : List DeviceId)
    (hn : 1 ≤ n) (hsd : s.shutdownEvent = false) :
    burst n s = FireRestart s
    ∧ (mainStep env failing (burst n s)).2 = 1
    ∧ (mainStep env failing (mainStep env failing (burst n s)).1).2 = 0 := by
  obtain ⟨m, rfl⟩ : ∃ m, n = m + 1 := ⟨n - 1, by omega⟩
  have hb : burst (m + 1) s = FireRestart s := by
    rw [burst]
    exact burst_fireRestart m s
  refine ⟨hb, ?_, ?_⟩
  · rw [hb]
    simp [mainStep, FireRestart, hsd]
  · rw [hb]
    simp [mainStep, FireRestart, Restart, hsd]

/-- Witness for claim C5: a burst of ten default-device-changed notifications
from the initial state coalesces into one pending restart and exactly one
restart cycle. -/
theorem restart_coalesced_witness :
    burst 10 initState = FireRestart initState
    ∧ (mainStep [devA] [] (burst 10 initState)).2 = 1
    ∧ (mainStep [devA] [] (mainStep [devA] [] (burst 10 initState)).1).2 = 0 :=
  restart_coalesced 10 initState [devA] [] (by decide) rfl

/-- Claim C6: `Start` never aborts on a per-device initialisation failure:
the whole operation still succeeds (the coordinator is started), every
enumerated device that does not fail ends with a `Running` guard in the
collection, every failing device is simply absent, and every guard present is
`Running`. -/
theorem partial_failure_isolated (env failing : List DeviceId) (s : SKState) :
    (Start env failing s).isStarted = true
    ∧ (∀ d, d ∈ env → d ∉ failing →
        Guard.mk d GuardState.Running ∈ (Start env failing s).keepers)
    ∧ (∀ d, d ∈ failing → d ∉ (Start env failing s).keepers.map Guard.device)
    ∧ (∀ g, g ∈ (Start env failing s).keepers → g.state = GuardState.Running) := by
  refine ⟨rfl, ?_, ?_, ?_⟩
  · exact fun d hmem hf => startLoop_mem_of failing env d hmem hf
  · intro d hf hin
    simp only [Start] at hin
    rw [startLoop_keys] at hin
    have hmf := List.mem_filter.mp hin
    exact (by simpa using hmf.2 : d ∉ failing) hf
  · exact fun g hg => startLoop_state failing env g hg

/-- Witness for claim C6: two devices present, `devA` failing initialisation:
the succeeding device `devB` ends with a `Running` guard in the collection. -/
theorem partial_failure_isolated_witness :
    Guard.mk devB GuardState.Running ∈ (Start [devA, devB] [devA] initState).keepers :=
  (partial_failure_isolated [devA, devB] [devA] initState).2.1 devB (by decide) (by decide)

/-- Claim C7: `Restart` equals `Stop` followed by `Start`, and the `Start`
half uses only the snapshot enumerated at restart time: the rebuilt
collection is independent of the pre-stop state. -/
theorem restart_is_stop_then_start (env failing : List DeviceId) (s : SKState) :
    Restart env failing s = Start env failing (Stop s)
    ∧ ∀ t : SKState, (Restart env failing s).keepers = (Restart env failing t).keepers :=
  ⟨rfl, fun _ => rfl⟩

/-- Claim C8: every buffer-available iteration commits a region that is
bit-identical to silence in the stream's negotiated representation: for both
integer PCM (16-bit samples of value 0) and float (IEEE-754 single `+0.0f`)
the committed bytes are all zero. -/
theorem render_fills_silence (t : RenderSampleType) (n : Nat) :
    fillSilence t n = List.replicate (n * sampleWidth t) 0 := by
  induction n with
  | zero => simp [fillSilence]
  | succ n ih =>
      have hsb : silentSampleBytes t = List.replicate (sampleWidth t) 0 := by
        cases t <;> decide
      rw [fillSilence, ih, hsb, Nat.succ_mul, Nat.add_comm, List.replicate_add]

end SoundKeeper
